import Mathlib

/-!
Verification of the NooDS `Wifi` peripheral (src/wifi.h) against its
natural-language specification.

The repository ships the class declaration `wifi.h`; the method bodies of
the non-inline members (`wifi.cpp`) are not part of the sources.  Inline
members (`shouldSchedule`, all register read accessors except
`readWRxbufRdData`) and every field initializer are embedded directly from
the header.  The remaining operations are modelled from the specification,
as flagged in their doc comments.

Registers are 16-bit (the baseband file is 8-bit); they are embedded as
`Nat`, with masking made explicit where a claim depends on width.
Method calls are embedded as state-passing functions: a read accessor
returns `Nat × Wifi` (result and post-state), a write returns the new
state.  Peripheral instances are identified by a `Nat` handle and a world
`Nat → Wifi` for the cross-instance connection operations.
-/

/-- The register/state bank of one `Wifi` peripheral instance, field for
field from the private section of `wifi.h` (lines 112-159).  The `ram`
field abstracts the console memory the RX circular buffer reads through;
it is not an architectural register of the peripheral. -/
structure Wifi where
  connections : List Nat
  packets : List (List Nat)
  scheduled : Bool
  bbRegisters : Fin 256 → Nat
  wModeWep : Nat
  wIrf : Nat
  wIe : Nat
  wMacaddr : Fin 3 → Nat
  wBssid : Fin 3 → Nat
  wAidFull : Nat
  wRxcnt : Nat
  wPowerstate : Nat
  wPowerforce : Nat
  wRxbufBegin : Nat
  wRxbufEnd : Nat
  wRxbufWrcsr : Nat
  wRxbufWrAddr : Nat
  wRxbufRdAddr : Nat
  wRxbufReadcsr : Nat
  wRxbufGap : Nat
  wRxbufGapdisp : Nat
  wTxbufLoc : Fin 5 → Nat
  wBeaconInt : Nat
  wTxreqRead : Nat
  wUsCountcnt : Nat
  wUsComparecnt : Nat
  wPreBeacon : Nat
  wBeaconCount : Nat
  wRxbufCount : Nat
  wTxbufWrAddr : Nat
  wTxbufCount : Nat
  wTxbufGap : Nat
  wTxbufGapdisp : Nat
  wPostBeacon : Nat
  wBbWrite : Nat
  wBbRead : Nat
  wConfig : Fin 15 → Nat
  ram : Nat → Nat

/-- The `wConfig[15]` initializer table of `wifi.h` lines 154-159. -/
def wConfigTable : List Nat :=
  [0x0048, 0x4840, 0x0000, 0x0000, 0x0142,
   0x8064, 0x0000, 0x2443, 0x0042, 0x0016,
   0x0016, 0x0016, 0x162C, 0x0204, 0x0058]

/-- The state produced by construction: every field initializer of
`wifi.h` lines 114-159 (`= 0`, `= {}` zero-fill, `wPowerstate = 0x0200`,
`wTxreqRead = 0x0010`, the `wConfig` table, `scheduled = false`, empty
`connections` and `packets` vectors).  The abstract `ram` starts at zero. -/
def Wifi.init : Wifi where
  connections := []
  packets := []
  scheduled := false
  bbRegisters := fun _ => 0
  wModeWep := 0
  wIrf := 0
  wIe := 0
  wMacaddr := fun _ => 0
  wBssid := fun _ => 0
  wAidFull := 0
  wRxcnt := 0
  wPowerstate := 0x0200
  wPowerforce := 0
  wRxbufBegin := 0
  wRxbufEnd := 0
  wRxbufWrcsr := 0
  wRxbufWrAddr := 0
  wRxbufRdAddr := 0
  wRxbufReadcsr := 0
  wRxbufGap := 0
  wRxbufGapdisp := 0
  wTxbufLoc := fun _ => 0
  wBeaconInt := 0
  wTxreqRead := 0x0010
  wUsCountcnt := 0
  wUsComparecnt := 0
  wPreBeacon := 0
  wBeaconCount := 0
  wRxbufCount := 0
  wTxbufWrAddr := 0
  wTxbufCount := 0
  wTxbufGap := 0
  wTxbufGapdisp := 0
  wPostBeacon := 0
  wBbWrite := 0
  wBbRead := 0
  wConfig := fun i => wConfigTable.getD i.val 0
  ram := fun _ => 0

/-- `wifi.h` line 37: `(!connections.empty() || wUsCountcnt) && !scheduled`
(a `uint16_t` used as a condition tests nonzero). -/
def shouldSchedule (s : Wifi) : Bool :=
  (!s.connections.isEmpty || s.wUsCountcnt != 0) && !s.scheduled

/-- `wifi.h` line 41: `return wModeWep;` — a method call returns the value
and the (unchanged) object state. -/
def readWModeWep (s : Wifi) : Nat × Wifi := (s.wModeWep, s)

/-- `wifi.h` line 42: `return wIrf;` -/
def readWIrf (s : Wifi) : Nat × Wifi := (s.wIrf, s)

/-- `wifi.h` line 43: `return wIe;` -/
def readWIe (s : Wifi) : Nat × Wifi := (s.wIe, s)

/-- `wifi.h` line 44: `return wMacaddr[index];` (index caller-guaranteed
in 0-2, embedded as `Fin 3`). -/
def readWMacaddr (i : Fin 3) (s : Wifi) : Nat × Wifi := (s.wMacaddr i, s)

/-- `wifi.h` line 45: `return wBssid[index];` -/
def readWBssid (i : Fin 3) (s : Wifi) : Nat × Wifi := (s.wBssid i, s)

/-- `wifi.h` line 46: `return wAidFull;` -/
def readWAidFull (s : Wifi) : Nat × Wifi := (s.wAidFull, s)

/-- `wifi.h` line 47: `return wRxcnt;` -/
def readWRxcnt (s : Wifi) : Nat × Wifi := (s.wRxcnt, s)

/-- `wifi.h` line 48: `return wPowerstate;` -/
def readWPowerstate (s : Wifi) : Nat × Wifi := (s.wPowerstate, s)

/-- `wifi.h` line 49: `return wPowerforce;` -/
def readWPowerforce (s : Wifi) : Nat × Wifi := (s.wPowerforce, s)

/-- `wifi.h` line 50: `return wRxbufBegin;` -/
def readWRxbufBegin (s : Wifi) : Nat × Wifi := (s.wRxbufBegin, s)

/-- `wifi.h` line 51: `return wRxbufEnd;` -/
def readWRxbufEnd (s : Wifi) : Nat × Wifi := (s.wRxbufEnd, s)

/-- `wifi.h` line 52: `return wRxbufWrcsr >> 1;` — the one derived read. -/
def readWRxbufWrcsr (s : Wifi) : Nat × Wifi := (s.wRxbufWrcsr >>> 1, s)

/-- `wifi.h` line 53: `return wRxbufWrAddr;` -/
def readWRxbufWrAddr (s : Wifi) : Nat × Wifi := (s.wRxbufWrAddr, s)

/-- `wifi.h` line 54: `return wRxbufRdAddr;` -/
def readWRxbufRdAddr (s : Wifi) : Nat × Wifi := (s.wRxbufRdAddr, s)

/-- `wifi.h` line 55: `return wRxbufReadcsr;` -/
def readWRxbufReadcsr (s : Wifi) : Nat × Wifi := (s.wRxbufReadcsr, s)

/-- `wifi.h` line 56: `return wRxbufGap;` -/
def readWRxbufGap (s : Wifi) : Nat × Wifi := (s.wRxbufGap, s)

/-- `wifi.h` line 57: `return wRxbufGapdisp;` -/
def readWRxbufGapdisp (s : Wifi) : Nat × Wifi := (s.wRxbufGapdisp, s)

/-- `wifi.h` line 58: `return wRxbufCount;` -/
def readWRxbufCount (s : Wifi) : Nat × Wifi := (s.wRxbufCount, s)

/-- `wifi.h` line 59: `return wTxbufWrAddr;` -/
def readWTxbufWrAddr (s : Wifi) : Nat × Wifi := (s.wTxbufWrAddr, s)

/-- `wifi.h` line 60: `return wTxbufCount;` -/
def readWTxbufCount (s : Wifi) : Nat × Wifi := (s.wTxbufCount, s)

/-- `wifi.h` line 61: `return wTxbufGap;` -/
def readWTxbufGap (s : Wifi) : Nat × Wifi := (s.wTxbufGap, s)

/-- `wifi.h` line 62: `return wTxbufGapdisp;` -/
def readWTxbufGapdisp (s : Wifi) : Nat × Wifi := (s.wTxbufGapdisp, s)

/-- `wifi.h` line 63: `return wTxbufLoc[index];` (index in 0-4). -/
def readWTxbufLoc (i : Fin 5) (s : Wifi) : Nat × Wifi := (s.wTxbufLoc i, s)

/-- `wifi.h` line 64: `return wBeaconInt;` -/
def readWBeaconInt (s : Wifi) : Nat × Wifi := (s.wBeaconInt, s)

/-- `wifi.h` line 65: `return wTxreqRead;` -/
def readWTxreqRead (s : Wifi) : Nat × Wifi := (s.wTxreqRead, s)

/-- `wifi.h` line 66: `return wUsCountcnt;` -/
def readWUsCountcnt (s : Wifi) : Nat × Wifi := (s.wUsCountcnt, s)

/-- `wifi.h` line 67: `return wUsComparecnt;` -/
def readWUsComparecnt (s : Wifi) : Nat × Wifi := (s.wUsComparecnt, s)

/-- `wifi.h` line 68: `return wPreBeacon;` -/
def readWPreBeacon (s : Wifi) : Nat × Wifi := (s.wPreBeacon, s)

/-- `wifi.h` line 69: `return wBeaconCount;` -/
def readWBeaconCount (s : Wifi) : Nat × Wifi := (s.wBeaconCount, s)

/-- `wifi.h` line 70: `return wConfig[index];` (index in 0-14). -/
def readWConfig (i : Fin 15) (s : Wifi) : Nat × Wifi := (s.wConfig i, s)

/-- `wifi.h` line 71: `return wPostBeacon;` -/
def readWPostBeacon (s : Wifi) : Nat × Wifi := (s.wPostBeacon, s)

/-- `wifi.h` line 72: `return wBbRead;` -/
def readWBbRead (s : Wifi) : Nat × Wifi := (s.wBbRead, s)

/-- Modelled from the spec: the method bodies of `wifi.cpp` are not among
the sources; section 4.1 defines every plain register write as the masked
read-modify-write `reg = (reg & ~mask) | (value & mask)`.  `~mask` on a
16-bit register is `mask ^^^ 0xFFFF`. -/
def maskedWrite (reg mask value : Nat) : Nat :=
  (reg &&& (mask ^^^ 0xFFFF)) ||| (value &&& mask)

/-- Modelled from the spec: `writeWModeWep` (declared `wifi.h` line 75) is
a plain masked store into `wModeWep` per section 4.1. -/
def writeWModeWep (s : Wifi) (mask value : Nat) : Wifi :=
  { s with wModeWep := maskedWrite s.wModeWep mask value }

/-- Modelled from the spec: `writeWIe` (declared `wifi.h` line 77) is a
plain masked store into the enable mask `wIe` per section 4.1. -/
def writeWIe (s : Wifi) (mask value : Nat) : Wifi :=
  { s with wIe := maskedWrite s.wIe mask value }

/-- Modelled from the spec: `writeWUsCountcnt` (declared `wifi.h` line 95)
is a plain masked store into `wUsCountcnt` per sections 4.1 and 4.3. -/
def writeWUsCountcnt (s : Wifi) (mask value : Nat) : Wifi :=
  { s with wUsCountcnt := maskedWrite s.wUsCountcnt mask value }

/-- Modelled from the spec: `writeWIrf` (declared `wifi.h` line 76).
Section 4.4 gives the flag register acknowledge semantics — "a normal
masked write to the flag register clears the acknowledged bits", i.e.
`wIrf &= ~(value & mask)` — not the generic masked read-modify-write. -/
def writeWIrf (s : Wifi) (mask value : Nat) : Wifi :=
  { s with wIrf := s.wIrf &&& ((value &&& mask) ^^^ 0xFFFF) }

/-- Modelled from the spec: `writeWIrfSet` (declared `wifi.h` line 109).
Section 4.4: it "allows firmware/test paths to force-set flag bits", i.e.
`wIrf |= value & mask`. -/
def writeWIrfSet (s : Wifi) (mask value : Nat) : Wifi :=
  { s with wIrf := s.wIrf ||| (value &&& mask) }

/-- Modelled from the spec: the RX read-cursor advance step of
`readWRxbufRdData` (declared `wifi.h` line 73), per section 4.2: the
cursor advances by one 16-bit word, is relocated to `gapStart + gapDisp`
when it falls inside the gap `[gapStart, gapStart + gapDisp)`, and wraps
to the window begin when it crosses the window end. -/
def rxAdvance (b e g d rd : Nat) : Nat :=
  let c := rd + 2
  let c2 := if g ≤ c ∧ c < g + d then g + d else c
  if e ≤ c2 then b else c2

/-- Modelled from the spec: `readWRxbufRdData` (declared `wifi.h` line
73), per section 4.2: it returns the 16-bit word at the current read
cursor, advances the cursor with gap-skipping and wraparound, and
decrements the pending count (`Nat` subtraction floors at 0, matching
"initialCount - N (floor at 0)").  The function is total: an empty buffer
is not an error, the stale word at the cursor is returned. -/
def readWRxbufRdData (s : Wifi) : Nat × Wifi :=
  (s.ram s.wRxbufRdAddr,
   { s with
       wRxbufRdAddr :=
         rxAdvance s.wRxbufBegin s.wRxbufEnd s.wRxbufGap s.wRxbufGapdisp s.wRxbufRdAddr,
       wRxbufCount := s.wRxbufCount - 1 })

/-- `n` successive `readWRxbufRdData` calls with no intervening writes. -/
def readN : Nat → Wifi → Wifi
  | 0, s => s
  | n + 1, s => readN n (readWRxbufRdData s).2

/-- Modelled from the spec: `sendInterrupt` (declared `wifi.h` line 161),
per section 4.4: it sets flag bit `bit` in `wIrf`; the external interrupt
line (the returned `Bool`) is asserted when the bit is enabled in `wIe`
and the flag bit transitions from clear to set — "repeated raises while
already pending do not re-assert". -/
def sendInterrupt (s : Wifi) (bit : Nat) : Wifi × Bool :=
  ({ s with wIrf := s.wIrf ||| 2 ^ bit },
   s.wIe.testBit bit && !s.wIrf.testBit bit)

/-- Modelled from the spec: `addConnection` (declared `wifi.h` line 34),
per sections 3 and 4.5: symmetric registration — instance `a` adds peer
`b` to its connection set and `b` adds `a` to its own.  Instances are
handles into a world `Nat → Wifi` (spec section 9 design note). -/
def addConnection (w : Nat → Wifi) (a b : Nat) : Nat → Wifi := fun i =>
  if i = a then { w a with connections := b :: (w a).connections }
  else if i = b then { w b with connections := a :: (w b).connections }
  else w i

/-- Modelled from the spec: `remConnection` (declared `wifi.h` line 35),
per sections 3, 4.5 and 7: symmetric removal from both connection sets;
removing a non-member peer is a no-op, not an error (the operation is
total). -/
def remConnection (w : Nat → Wifi) (a b : Nat) : Nat → Wifi := fun i =>
  if i = a then { w a with connections := (w a).connections.filter (fun x => x != b) }
  else if i = b then { w b with connections := (w b).connections.filter (fun x => x != a) }
  else w i

theorem maskedWrite_and_mask (reg mask value : Nat) (hm : mask < 65536) :
    maskedWrite reg mask value &&& mask = value &&& mask := by
  apply Nat.eq_of_testBit_eq
  intro i
  have h65535 : (65535 : Nat) = 2 ^ 16 - 1 := by norm_num
  rcases Nat.lt_or_ge i 16 with hi | hi
  · have h1 : Nat.testBit 65535 i = true := by
      rw [h65535, Nat.testBit_two_pow_sub_one]
      simpa using hi
    simp only [maskedWrite, Nat.testBit_and, Nat.testBit_or, Nat.testBit_xor, h1]
    cases mask.testBit i <;> cases reg.testBit i <;> cases value.testBit i <;> decide
  · have h0 : mask.testBit i = false :=
      Nat.testBit_lt_two_pow (lt_of_lt_of_le hm (Nat.pow_le_pow_right (show 0 < 2 by norm_num) hi))
    simp [maskedWrite, Nat.testBit_and, Nat.testBit_or, Nat.testBit_xor, h0]

theorem maskedWrite_and_not_mask (reg mask value : Nat) (hm : mask < 65536) :
    maskedWrite reg mask value &&& (mask ^^^ 65535) = reg &&& (mask ^^^ 65535) := by
  apply Nat.eq_of_testBit_eq
  intro i
  have h65535 : (65535 : Nat) = 2 ^ 16 - 1 := by norm_num
  rcases Nat.lt_or_ge i 16 with hi | hi
  · have h1 : Nat.testBit 65535 i = true := by
      rw [h65535, Nat.testBit_two_pow_sub_one]
      simpa using hi
    simp only [maskedWrite, Nat.testBit_and, Nat.testBit_or, Nat.testBit_xor, h1]
    cases mask.testBit i <;> cases reg.testBit i <;> cases value.testBit i <;> decide
  · have h0 : mask.testBit i = false :=
      Nat.testBit_lt_two_pow (lt_of_lt_of_le hm (Nat.pow_le_pow_right (show 0 < 2 by norm_num) hi))
    simp [maskedWrite, Nat.testBit_and, Nat.testBit_or, Nat.testBit_xor, h0]

theorem rxAdvance_spec (b e g d rd : Nat)
    (hb : ¬ (g ≤ b ∧ b < g + d)) (hw : g + d < e) :
    (¬ (g ≤ rxAdvance b e g d rd ∧ rxAdvance b e g d rd < g + d)) ∧
    ((g ≤ rd + 2 ∧ rd + 2 < g + d) → rxAdvance b e g d rd = g + d) ∧
    (¬ (g ≤ rd + 2 ∧ rd + 2 < g + d) → e ≤ rd + 2 → rxAdvance b e g d rd = b) := by
  unfold rxAdvance
  dsimp only
  split_ifs with h1 h2 h2 <;> omega

theorem readN_count (n : Nat) : ∀ s : Wifi, (readN n s).wRxbufCount = s.wRxbufCount - n := by
  induction n with
  | zero => intro s; rfl
  | succ n ih =>
      intro s
      have h1 : readN (n + 1) s = readN n (readWRxbufRdData s).2 := rfl
      have h2 : ((readWRxbufRdData s).2).wRxbufCount = s.wRxbufCount - 1 := rfl
      rw [h1, ih, h2]
      omega

/-- C1 counterexample: the claim "every writable register performs exactly
the masked read-modify-write" fails on the interrupt-flag register.  Per
spec section 4.4 a masked write to `wIrf` clears the acknowledged bits, so
from a state with `wIrf = 1`, `writeWIrf(mask = 1, value = 1)` leaves the
flag register at 0 and `read & mask = 0 ≠ 1 = value & mask`. -/
theorem C1_counterexample :
    ¬ ((readWIrf (writeWIrf { Wifi.init with wIrf := 1 } 1 1)).1 &&& 1 = 1 &&& 1) := by
  decide

/-- C1 (amended): every writable register whose write is a plain masked
store — all of them except the special-semantics writes documented in
spec sections 4.2 and 4.4 (`writeWIrf` clears acknowledged flag bits,
`writeWIrfSet` force-sets flag bits, `writeWTxreqSet`/`writeWTxreqReset`
set/clear request bits, `writeWTxbufWrData` appends to the TX buffer) —
performs exactly `reg = (reg & ~mask) | (value & mask)` for every 16-bit
mask: afterwards `read(reg) & mask = value & mask` and the bits outside
the mask are unchanged.  Stated for the representative plain register
`wModeWep` and for `maskedWrite` itself, which every plain register write
applies to its own field. -/
theorem C1_amended_masked_write (s : Wifi) (reg mask value : Nat) (hm : mask < 0x10000) :
    (readWModeWep (writeWModeWep s mask value)).1 &&& mask = value &&& mask ∧
    (readWModeWep (writeWModeWep s mask value)).1 &&& (mask ^^^ 0xFFFF) =
      s.wModeWep &&& (mask ^^^ 0xFFFF) ∧
    maskedWrite reg mask value &&& mask = value &&& mask ∧
    maskedWrite reg mask value &&& (mask ^^^ 0xFFFF) = reg &&& (mask ^^^ 0xFFFF) :=
  ⟨maskedWrite_and_mask s.wModeWep mask value hm,
   maskedWrite_and_not_mask s.wModeWep mask value hm,
   maskedWrite_and_mask reg mask value hm,
   maskedWrite_and_not_mask reg mask value hm⟩

/-- C1 witness: the amended masked-write property evaluated at
`mask = 0xFF00`, `value = 0x1234`, `reg = 0xABCD` on the fresh state. -/
theorem C1_amended_masked_write_witness :
    (0xFF00 : Nat) < 0x10000 ∧
    ((readWModeWep (writeWModeWep Wifi.init 0xFF00 0x1234)).1 &&& 0xFF00 =
        0x1234 &&& 0xFF00 ∧
     (readWModeWep (writeWModeWep Wifi.init 0xFF00 0x1234)).1 &&& (0xFF00 ^^^ 0xFFFF) =
        Wifi.init.wModeWep &&& (0xFF00 ^^^ 0xFFFF) ∧
     maskedWrite 0xABCD 0xFF00 0x1234 &&& 0xFF00 = 0x1234 &&& 0xFF00 ∧
     maskedWrite 0xABCD 0xFF00 0x1234 &&& (0xFF00 ^^^ 0xFFFF) =
        0xABCD &&& (0xFF00 ^^^ 0xFFFF)) :=
  ⟨by decide, C1_amended_masked_write Wifi.init 0xABCD 0xFF00 0x1234 (by decide)⟩

/-- C2: in any state whose gap configuration is sane (the window begin is
not inside the gap and the gap ends strictly before the window end, spec
section 3 invariants), the read cursor after a `readWRxbufRdData` advance
never lies inside `[gapStart, gapStart + gapDisp)`; an advance landing
inside the gap is relocated to `gapStart + gapDisp`; and an advance
crossing the window end wraps the cursor to the window begin. -/
theorem C2_rx_gap_skip_wrap (s : Wifi)
    (hb : ¬ (s.wRxbufGap ≤ s.wRxbufBegin ∧
             s.wRxbufBegin < s.wRxbufGap + s.wRxbufGapdisp))
    (hw : s.wRxbufGap + s.wRxbufGapdisp < s.wRxbufEnd) :
    (¬ (s.wRxbufGap ≤ ((readWRxbufRdData s).2).wRxbufRdAddr ∧
        ((readWRxbufRdData s).2).wRxbufRdAddr < s.wRxbufGap + s.wRxbufGapdisp)) ∧
    ((s.wRxbufGap ≤ s.wRxbufRdAddr + 2 ∧
      s.wRxbufRdAddr + 2 < s.wRxbufGap + s.wRxbufGapdisp) →
        ((readWRxbufRdData s).2).wRxbufRdAddr = s.wRxbufGap + s.wRxbufGapdisp) ∧
    (¬ (s.wRxbufGap ≤ s.wRxbufRdAddr + 2 ∧
        s.wRxbufRdAddr + 2 < s.wRxbufGap + s.wRxbufGapdisp) →
      s.wRxbufEnd ≤ s.wRxbufRdAddr + 2 →
        ((readWRxbufRdData s).2).wRxbufRdAddr = s.wRxbufBegin) :=
  rxAdvance_spec s.wRxbufBegin s.wRxbufEnd s.wRxbufGap s.wRxbufGapdisp s.wRxbufRdAddr hb hw

/-- Concrete state for the C2 witness: window `[0, 100)`, gap `[10, 14)`,
read cursor at 8, so the advance to 10 lands in the gap. -/
def c2WitState : Wifi :=
  { Wifi.init with wRxbufEnd := 100, wRxbufGap := 10, wRxbufGapdisp := 4, wRxbufRdAddr := 8 }

/-- C2 witness: the gap-skip/wraparound property evaluated on
`c2WitState`, where the advance lands on the gap start and is relocated
to 14. -/
theorem C2_rx_gap_skip_wrap_witness :
    ((¬ (c2WitState.wRxbufGap ≤ c2WitState.wRxbufBegin ∧
         c2WitState.wRxbufBegin < c2WitState.wRxbufGap + c2WitState.wRxbufGapdisp)) ∧
     c2WitState.wRxbufGap + c2WitState.wRxbufGapdisp < c2WitState.wRxbufEnd) ∧
    ((¬ (c2WitState.wRxbufGap ≤ ((readWRxbufRdData c2WitState).2).wRxbufRdAddr ∧
         ((readWRxbufRdData c2WitState).2).wRxbufRdAddr <
           c2WitState.wRxbufGap + c2WitState.wRxbufGapdisp)) ∧
     ((c2WitState.wRxbufGap ≤ c2WitState.wRxbufRdAddr + 2 ∧
       c2WitState.wRxbufRdAddr + 2 < c2WitState.wRxbufGap + c2WitState.wRxbufGapdisp) →
         ((readWRxbufRdData c2WitState).2).wRxbufRdAddr =
           c2WitState.wRxbufGap + c2WitState.wRxbufGapdisp) ∧
     (¬ (c2WitState.wRxbufGap ≤ c2WitState.wRxbufRdAddr + 2 ∧
         c2WitState.wRxbufRdAddr + 2 < c2WitState.wRxbufGap + c2WitState.wRxbufGapdisp) →
       c2WitState.wRxbufEnd ≤ c2WitState.wRxbufRdAddr + 2 →
         ((readWRxbufRdData c2WitState).2).wRxbufRdAddr = c2WitState.wRxbufBegin)) :=
  ⟨⟨by decide, by decide⟩, C2_rx_gap_skip_wrap c2WitState (by decide) (by decide)⟩

/-- C3: after `n` calls to `readWRxbufRdData` with no intervening writes,
the pending count `wRxbufCount` equals `max (initialCount - n) 0`; and
each read returns the word at the current read cursor unconditionally —
an empty buffer is not an error, the read fails silently with the stale
word (the function is total, there is no error case). -/
theorem C3_rx_pending_count (n : Nat) (s : Wifi) :
    ((readN n s).wRxbufCount : Int) = max ((s.wRxbufCount : Int) - (n : Int)) 0 ∧
    (readWRxbufRdData s).1 = s.ram s.wRxbufRdAddr := by
  refine ⟨?_, rfl⟩
  have h := readN_count n s
  rw [max_def]
  split_ifs <;> omega

/-- C4: `sendInterrupt b` sets flag bit `b` in `wIrf`; the external
interrupt line is asserted exactly when the bit is enabled in `wIe` and
the flag bit was previously clear (a clear-to-set transition); calling
`sendInterrupt b` again immediately afterwards never re-asserts the
line. -/
theorem C4_interrupt_edge (s : Wifi) (b : Nat) :
    ((sendInterrupt s b).1.wIrf.testBit b = true) ∧
    ((sendInterrupt s b).2 = true ↔
      (s.wIe.testBit b = true ∧ s.wIrf.testBit b = false)) ∧
    ((sendInterrupt (sendInterrupt s b).1 b).2 = false) := by
  refine ⟨?_, ?_, ?_⟩
  · show (s.wIrf ||| 2 ^ b).testBit b = true
    simp [Nat.testBit_or, Nat.testBit_two_pow_self]
  · show (s.wIe.testBit b && !s.wIrf.testBit b) = true ↔ _
    cases h1 : s.wIe.testBit b <;> cases h2 : s.wIrf.testBit b <;> simp
  · show (((sendInterrupt s b).1).wIe.testBit b &&
          !((sendInterrupt s b).1).wIrf.testBit b) = false
    have hset : ((sendInterrupt s b).1).wIrf.testBit b = true := by
      show (s.wIrf ||| 2 ^ b).testBit b = true
      simp [Nat.testBit_or, Nat.testBit_two_pow_self]
    rw [hset]
    simp

/-- C5: `shouldSchedule` returns true exactly when the connection set is
non-empty or the microsecond timer is armed (`wUsCountcnt ≠ 0`) and no
service event is pending (`scheduled = false`); in particular it is false
on a freshly constructed instance. -/
theorem C5_should_schedule :
    (∀ s : Wifi, shouldSchedule s = true ↔
      ((s.connections ≠ [] ∨ s.wUsCountcnt ≠ 0) ∧ s.scheduled = false)) ∧
    shouldSchedule Wifi.init = false := by
  constructor
  · intro s
    cases hc : s.connections <;> cases hs : s.scheduled <;>
      simp [shouldSchedule, hc, hs]
  · rfl

/-- C7: at construction the power-state register holds 0x0200, the TX
request-read register holds 0x0010, and the 15-entry `wConfig` baseband
configuration array holds the factory default table from `wifi.h` lines
154-159. -/
theorem C7_poweron_defaults :
    Wifi.init.wPowerstate = 0x0200 ∧ Wifi.init.wTxreqRead = 0x0010 ∧
    Wifi.init.wConfig 0 = 0x0048 ∧ Wifi.init.wConfig 1 = 0x4840 ∧
    Wifi.init.wConfig 2 = 0x0000 ∧ Wifi.init.wConfig 3 = 0x0000 ∧
    Wifi.init.wConfig 4 = 0x0142 ∧ Wifi.init.wConfig 5 = 0x8064 ∧
    Wifi.init.wConfig 6 = 0x0000 ∧ Wifi.init.wConfig 7 = 0x2443 ∧
    Wifi.init.wConfig 8 = 0x0042 ∧ Wifi.init.wConfig 9 = 0x0016 ∧
    Wifi.init.wConfig 10 = 0x0016 ∧ Wifi.init.wConfig 11 = 0x0016 ∧
    Wifi.init.wConfig 12 = 0x162C ∧ Wifi.init.wConfig 13 = 0x0204 ∧
    Wifi.init.wConfig 14 = 0x0058 := by
  decide

/-- C6: for distinct instances `a ≠ b`, after `addConnection` both
connection sets contain the other instance, and after a subsequent
`remConnection` neither set contains the other. -/
theorem C6_connection_symmetry (w : Nat → Wifi) (a b : Nat) (hab : a ≠ b) :
    (b ∈ ((addConnection w a b) a).connections ∧
     a ∈ ((addConnection w a b) b).connections) ∧
    (b ∉ ((remConnection (addConnection w a b) a b) a).connections ∧
     a ∉ ((remConnection (addConnection w a b) a b) b).connections) := by
  have hba : b ≠ a := hab.symm
  refine ⟨⟨?_, ?_⟩, ?_, ?_⟩
  · simp [addConnection]
  · simp [addConnection, hba]
  · simp [remConnection, List.mem_filter]
  · simp [remConnection, hba, List.mem_filter]

/-- C6 witness: connection symmetry evaluated in a two-instance world of
fresh peripherals with handles 0 and 1. -/
theorem C6_connection_symmetry_witness :
    (0 : Nat) ≠ 1 ∧
    ((1 ∈ ((addConnection (fun _ => Wifi.init) 0 1) 0).connections ∧
      0 ∈ ((addConnection (fun _ => Wifi.init) 0 1) 1).connections) ∧
     (1 ∉ ((remConnection (addConnection (fun _ => Wifi.init) 0 1) 0 1) 0).connections ∧
      0 ∉ ((remConnection (addConnection (fun _ => Wifi.init) 0 1) 0 1) 1).connections)) :=
  ⟨by decide, C6_connection_symmetry (fun _ => Wifi.init) 0 1 (by decide)⟩

/-- C9: removing a peer that is not in the connection set is a no-op on
the calling instance: its connection set and all of its other state are
unchanged, and no error is signalled (the operation is total). -/
theorem C9_rem_nonmember_noop (w : Nat → Wifi) (a b : Nat)
    (h : b ∉ (w a).connections) :
    (remConnection w a b) a = w a := by
  have hf : (w a).connections.filter (fun x => x != b) = (w a).connections := by
    apply List.filter_eq_self.mpr
    intro x hx
    simp only [bne_iff_ne, ne_eq]
    intro hxb
    exact h (hxb ▸ hx)
  have hr : (remConnection w a b) a =
      { w a with connections := (w a).connections.filter (fun x => x != b) } := by
    simp [remConnection]
  rw [hr, hf]

/-- C9 witness: removing handle 1 from a fresh instance with an empty
connection set leaves the instance unchanged. -/
theorem C9_rem_nonmember_noop_witness :
    (1 : Nat) ∉ ((fun _ => Wifi.init : Nat → Wifi) 0).connections ∧
    (remConnection (fun _ => Wifi.init) 0 1) 0 = (fun _ => Wifi.init : Nat → Wifi) 0 :=
  ⟨by decide, C9_rem_nonmember_noop (fun _ => Wifi.init) 0 1 (by decide)⟩

/-- C8: every register read method except `readWRxbufRdData` returns the
current (possibly derived) value of its register and leaves the entire
peripheral state unchanged; the final conjunct shows that the RX data
read, by contrast, does advance state (it decrements the pending count on
a concrete state). -/
theorem C8_read_frame (s : Wifi) :
    readWModeWep s = (s.wModeWep, s) ∧
    readWIrf s = (s.wIrf, s) ∧
    readWIe s = (s.wIe, s) ∧
    (∀ i, readWMacaddr i s = (s.wMacaddr i, s)) ∧
    (∀ i, readWBssid i s = (s.wBssid i, s)) ∧
    readWAidFull s = (s.wAidFull, s) ∧
    readWRxcnt s = (s.wRxcnt, s) ∧
    readWPowerstate s = (s.wPowerstate, s) ∧
    readWPowerforce s = (s.wPowerforce, s) ∧
    readWRxbufBegin s = (s.wRxbufBegin, s) ∧
    readWRxbufEnd s = (s.wRxbufEnd, s) ∧
    readWRxbufWrcsr s = (s.wRxbufWrcsr >>> 1, s) ∧
    readWRxbufWrAddr s = (s.wRxbufWrAddr, s) ∧
    readWRxbufRdAddr s = (s.wRxbufRdAddr, s) ∧
    readWRxbufReadcsr s = (s.wRxbufReadcsr, s) ∧
    readWRxbufGap s = (s.wRxbufGap, s) ∧
    readWRxbufGapdisp s = (s.wRxbufGapdisp, s) ∧
    readWRxbufCount s = (s.wRxbufCount, s) ∧
    readWTxbufWrAddr s = (s.wTxbufWrAddr, s) ∧
    readWTxbufCount s = (s.wTxbufCount, s) ∧
    readWTxbufGap s = (s.wTxbufGap, s) ∧
    readWTxbufGapdisp s = (s.wTxbufGapdisp, s) ∧
    (∀ i, readWTxbufLoc i s = (s.wTxbufLoc i, s)) ∧
    readWBeaconInt s = (s.wBeaconInt, s) ∧
    readWTxreqRead s = (s.wTxreqRead, s) ∧
    readWUsCountcnt s = (s.wUsCountcnt, s) ∧
    readWUsComparecnt s = (s.wUsComparecnt, s) ∧
    readWPreBeacon s = (s.wPreBeacon, s) ∧
    readWBeaconCount s = (s.wBeaconCount, s) ∧
    (∀ i, readWConfig i s = (s.wConfig i, s)) ∧
    readWPostBeacon s = (s.wPostBeacon, s) ∧
    readWBbRead s = (s.wBbRead, s) ∧
    ((readWRxbufRdData { Wifi.init with wRxbufCount := 4 }).2).wRxbufCount = 3 :=
  ⟨rfl, rfl, rfl, fun _ => rfl, fun _ => rfl, rfl, rfl, rfl, rfl, rfl, rfl, rfl, rfl,
   rfl, rfl, rfl, rfl, rfl, rfl, rfl, rfl, rfl, fun _ => rfl, rfl, rfl, rfl, rfl, rfl,
   rfl, fun _ => rfl, rfl, rfl, rfl⟩

/-- C10: at construction every register without an explicit non-zero
initializer is zero — all 256 baseband cells, every 16-bit register other
than `wPowerstate`, `wTxreqRead` and the `wConfig` table — and the
connection set and packet queue are empty with the scheduled flag
false. -/
theorem C10_zero_defaults :
    (∀ i : Fin 256, Wifi.init.bbRegisters i = 0) ∧
    Wifi.init.wModeWep = 0 ∧ Wifi.init.wIrf = 0 ∧ Wifi.init.wIe = 0 ∧
    (∀ i : Fin 3, Wifi.init.wMacaddr i = 0) ∧
    (∀ i : Fin 3, Wifi.init.wBssid i = 0) ∧
    Wifi.init.wAidFull = 0 ∧ Wifi.init.wRxcnt = 0 ∧ Wifi.init.wPowerforce = 0 ∧
    Wifi.init.wRxbufBegin = 0 ∧ Wifi.init.wRxbufEnd = 0 ∧ Wifi.init.wRxbufWrcsr = 0 ∧
    Wifi.init.wRxbufWrAddr = 0 ∧ Wifi.init.wRxbufRdAddr = 0 ∧
    Wifi.init.wRxbufReadcsr = 0 ∧ Wifi.init.wRxbufGap = 0 ∧
    Wifi.init.wRxbufGapdisp = 0 ∧
    (∀ i : Fin 5, Wifi.init.wTxbufLoc i = 0) ∧ Wifi.init.wBeaconInt = 0 ∧
    Wifi.init.wUsCountcnt = 0 ∧ Wifi.init.wUsComparecnt = 0 ∧
    Wifi.init.wPreBeacon = 0 ∧ Wifi.init.wBeaconCount = 0 ∧
    Wifi.init.wRxbufCount = 0 ∧ Wifi.init.wTxbufWrAddr = 0 ∧
    Wifi.init.wTxbufCount = 0 ∧ Wifi.init.wTxbufGap = 0 ∧
    Wifi.init.wTxbufGapdisp = 0 ∧ Wifi.init.wPostBeacon = 0 ∧
    Wifi.init.wBbWrite = 0 ∧ Wifi.init.wBbRead = 0 ∧
    Wifi.init.connections = [] ∧ Wifi.init.packets = [] ∧
    Wifi.init.scheduled = false :=
  ⟨fun _ => rfl, rfl, rfl, rfl, fun _ => rfl, fun _ => rfl, rfl, rfl, rfl, rfl, rfl,
   rfl, rfl, rfl, rfl, rfl, rfl, fun _ => rfl, rfl, rfl, rfl, rfl, rfl, rfl, rfl, rfl,
   rfl, rfl, rfl, rfl, rfl, rfl, rfl, rfl⟩
